import Mathlib

/-!
Shallow embedding of the monarch-amazon-sync order-extraction pipeline.

Sources embedded here:
* src/src/shared/api/amazonApi.ts — checkAmazonAuth, fetchOrders,
  processOrders, orderListFromPage, fetchOrderTransactions, moneyToNumber;
* src/unnamed/part_000 — WalmartProvider (doCheckAuth, fetchOrders,
  processOrders, orderListFromPage, fetchOrderTransactions);
* src/src/shared/api/providerApi.ts — the Provider contract (AuthStatus
  values and the shape of doCheckAuth results).

JavaScript numbers that the scraping code can produce are modelled by
`JSNum` (a rational, NaN, or positive infinity); machine floats never
overflow on the inputs in play, and none of the claims concern float
rounding, so exact rationals stand in for doubles.  Parsed HTML documents
are modelled at the granularity the code queries them: one structure field
per selector result.  Network fetches are modelled as `Except String`
values supplied by an environment, so a thrown network error is an
`Except.error`.
-/

namespace MonarchSync

/-- Model of the JavaScript number values produced by the scraping code:
an exact rational, NaN (e.g. parseFloat of a malformed string), or the
positive infinity that Math.min() of no arguments returns. -/
inductive JSNum where
  | num (q : ℚ)
  | nan
  | posInf
deriving DecidableEq, Repr

/-- Truthiness of a JSNum under a JavaScript `if`: 0 and NaN are falsy,
every other number (including Infinity) is truthy. -/
def JSNum.truthy : JSNum → Bool
  | JSNum.num q => decide (q ≠ 0)
  | JSNum.nan => false
  | JSNum.posInf => true

/-- Does the pattern occur as a contiguous run inside the character list? -/
def listHasInfix (pat : List Char) : List Char → Bool
  | [] => pat.isEmpty
  | c :: rest => pat.isPrefixOf (c :: rest) || listHasInfix pat rest

/-- Model of JavaScript String.prototype.includes: does `sub` occur as a
contiguous substring of `s`? -/
def jsIncludes (s sub : String) : Bool :=
  listHasInfix sub.data s.data

/-- Model of JavaScript String.prototype.trim: strip leading and trailing
whitespace. -/
def jsTrim (s : String) : String :=
  String.mk (((s.data.dropWhile Char.isWhitespace).reverse.dropWhile
    Char.isWhitespace).reverse)

/-- Index of the first occurrence of `pat` in `l`, none when absent. -/
def findSub (pat : List Char) : List Char → Option Nat
  | [] => if pat.isEmpty then some 0 else none
  | c :: rest =>
    if pat.isPrefixOf (c :: rest) then some 0
    else (findSub pat rest).map (fun i => i + 1)

/-- Model of JavaScript String.prototype.replace with a plain-string
pattern: only the first occurrence of `pat` is replaced by `rep`. -/
def jsReplaceFirst (s pat rep : String) : String :=
  match findSub pat.data s.data with
  | none => s
  | some i => String.mk (s.data.take i ++ rep.data ++ s.data.drop (i + pat.data.length))

/-- Fuel-driven core of replaceAll: the fuel starts at the subject's
length and strictly bounds it, so the zero-fuel branch is unreachable for
a nonempty pattern; structural recursion on the fuel keeps the definition
kernel-computable. -/
def replaceAllAux (pat rep : List Char) : Nat → List Char → List Char
  | _, [] => []
  | 0, l => l
  | Nat.succ fuel, c :: rest =>
    if pat ≠ [] ∧ pat.isPrefixOf (c :: rest) then
      rep ++ replaceAllAux pat rep fuel ((c :: rest).drop pat.length)
    else
      c :: replaceAllAux pat rep fuel rest

/-- Model of JavaScript String.prototype.replaceAll with a plain-string
pattern: every occurrence of `pat` is replaced by `rep`, scanning left to
right. -/
def jsReplaceAll (s pat rep : String) : String :=
  String.mk (replaceAllAux pat.data rep.data s.data.length s.data)

/-- Model of JavaScript s.split(pat)[0]: the text before the first
occurrence of `pat`, or the whole string when `pat` is absent. -/
def jsSplitGet0 (s pat : String) : String :=
  match findSub pat.data s.data with
  | none => s
  | some i => String.mk (s.data.take i)

/-- Model of JavaScript s.split(pat)[1]: the text between the first and
the second occurrence of `pat` (up to the end when there is no second
occurrence), or undefined (none) when `pat` does not occur at all. -/
def jsSplitGet1 (s pat : String) : Option String :=
  match findSub pat.data s.data with
  | none => none
  | some i =>
    let after := s.data.drop (i + pat.data.length)
    match findSub pat.data after with
    | none => some (String.mk after)
    | some j => some (String.mk (after.take j))

/-- Numeric value of a list of decimal digit characters. -/
def digitsToNat (l : List Char) : Nat :=
  l.foldl (fun acc c => acc * 10 + (c.toNat - '0'.toNat)) 0

/-- Model of JavaScript parseInt with no radix argument, on the decimal
inputs these pages produce (no 0x-prefixed strings occur): skip leading
whitespace, read an optional sign and then leading decimal digits; `none`
stands for NaN (no digits found). -/
def parseIntJS (s : String) : Option Int :=
  let cs := s.data.dropWhile Char.isWhitespace
  let digitsVal := fun (l : List Char) =>
    let ds := l.takeWhile Char.isDigit
    if ds.isEmpty then none else some (digitsToNat ds)
  match cs with
  | '-' :: rest => (digitsVal rest).map (fun n => -(n : Int))
  | '+' :: rest => (digitsVal rest).map (fun n => (n : Int))
  | _ => (digitsVal cs).map (fun n => (n : Int))

/-- Exponent part of a JavaScript float literal: an optional sign and the
leading digits; a missing digit run contributes exponent 0 (parseFloat
stops before a bare `e`). -/
def parseExpJS (l : List Char) : Int :=
  let digitsVal := fun (d : List Char) => digitsToNat (d.takeWhile Char.isDigit)
  match l with
  | '-' :: rest => -(digitsVal rest : Int)
  | '+' :: rest => (digitsVal rest : Int)
  | _ => (digitsVal l : Int)

/-- Model of JavaScript parseFloat on the currency-derived strings these
pages produce: skip leading whitespace, read an optional sign, integer
digits, an optional fraction and an optional exponent; NaN when no digit
was read (the special literal "Infinity" never occurs in these inputs and
is not modelled). -/
def parseFloatJS (s : String) : JSNum :=
  let cs := s.data.dropWhile Char.isWhitespace
  let sgnAndRest : Int × List Char :=
    match cs with
    | '-' :: r => (-1, r)
    | '+' :: r => (1, r)
    | _ => (1, cs)
  let sgn := sgnAndRest.1
  let cs1 := sgnAndRest.2
  let intDs := cs1.takeWhile Char.isDigit
  let r1 := cs1.drop intDs.length
  let fracAndRest : List Char × List Char :=
    match r1 with
    | '.' :: r => (r.takeWhile Char.isDigit, (r.takeWhile Char.isDigit).length.succ |> r1.drop)
    | _ => ([], r1)
  let fracDs := fracAndRest.1
  let r2 := fracAndRest.2
  if intDs.isEmpty ∧ fracDs.isEmpty then JSNum.nan
  else
    let expVal : Int :=
      match r2 with
      | 'e' :: r => parseExpJS r
      | 'E' :: r => parseExpJS r
      | _ => 0
    let mantNum : Int :=
      sgn * ((digitsToNat intDs : Int) * (10 : Int) ^ fracDs.length + (digitsToNat fracDs : Int))
    if 0 ≤ expVal then
      JSNum.num (mkRat (mantNum * (10 : Int) ^ expVal.toNat) ((10 : Nat) ^ fracDs.length))
    else
      JSNum.num (mkRat mantNum ((10 : Nat) ^ fracDs.length * (10 : Nat) ^ (-expVal).toNat))

/-- Model of Math.min(...xs) over parseInt results: NaN if any argument is
NaN, positive infinity when there is no argument, otherwise the least
argument. -/
def jsMinInts (l : List (Option Int)) : JSNum :=
  if l.contains none then JSNum.nan
  else
    match l.filterMap id with
    | [] => JSNum.posInf
    | x :: xs => JSNum.num ((xs.foldl min x : Int) : ℚ)

/-- Authentication status enumeration shared by every provider.  Modelled
from the spec: the AuthStatus enum lives in src/shared/storages/appStorage,
which is not under src/; the spec (§3) fixes its values as
Success, NotLoggedIn, Failure and Pending. -/
inductive AuthStatus where
  | Success
  | NotLoggedIn
  | Failure
  | Pending
deriving DecidableEq, Repr

/-- Progress phases used by the two providers' fetchOrders pipelines.
Modelled from the spec: the ProgressPhase enum lives in
src/shared/storages/progressStorage, not under src/; the phases named
by the embedded call sites are the page-scan and order-download phases
of each provider. -/
inductive ProgressPhase where
  | AmazonPageScan
  | AmazonOrderDownload
  | WalmartPageScan
  | WalmartOrderDownload
deriving DecidableEq, Repr

/-- Progress snapshot passed to the onProgress callback: phase plus total
and completed unit counts (JavaScript numbers; the code only ever passes
integers, so Int). -/
structure ProgressState where
  phase : ProgressPhase
  total : Int
  complete : Int
deriving DecidableEq, Repr

/-- One line item parsed from a detail page.  The Amazon adapter produces
items with only title and price (orderId and refunded stay none); the
Walmart adapter also records the owning order id and the refunded flag. -/
structure Item where
  orderId : Option String
  title : String
  price : JSNum
  refunded : Option Bool
deriving DecidableEq, Repr

/-- One financial event tied to an order: id of the order, free-text date,
amount, refund flag, and the items attributed to this event. -/
structure OrderTransaction where
  id : String
  date : String
  amount : JSNum
  refund : Bool
  items : List Item
deriving DecidableEq, Repr

/-- One order.  walmartStorePurchase is the Walmart-only in-store flag
(none for Amazon); transactions is none until the detail page has been
fetched. -/
structure Order where
  id : String
  date : String
  walmartStorePurchase : Option Bool
  transactions : Option (List OrderTransaction)
deriving DecidableEq, Repr

/-- Result shape of checkAmazonAuth / WalmartProvider.doCheckAuth:
the AmazonInfo record of amazonApi.ts (status plus optional
startingYear). -/
structure AmazonInfo where
  status : AuthStatus
  startingYear : Option JSNum
deriving DecidableEq, Repr

/-- Parsed order-history document as the auth probes query it: the HTTP
status code (used only in a log line), the number of elements matched by
the provider's sign-in selector, and the value attribute of each option
element under the #time-filter control (none when the attribute is
absent). -/
structure AuthDoc where
  statusCode : Nat
  signInCount : Nat
  timeFilterOptions : List (Option String)
deriving DecidableEq, Repr

/-- Year-option scan shared verbatim by checkAmazonAuth
(amazonApi.ts:52-59) and WalmartProvider.doCheckAuth (part_000:29-36):
keep each option whose value attribute contains "year", and record its
value trimmed with the first "year-" removed. -/
def yearOptionsOf (opts : List (Option String)) : List String :=
  opts.filterMap (fun v =>
    match v with
    | some s => if jsIncludes s "year" then some (jsReplaceFirst (jsTrim s) "year-" "") else none
    | none => none)

/-- Outcome of the year scan for one option element, stated with the
generic string operations (not with the scan function itself): an option
whose value contains "year" is year-valued and contributes its value,
trimmed and with the first "year-" removed, parsed as an integer; an
option without a value attribute, or whose value does not contain "year",
is skipped and contributes nothing.  Used to state which of a document's
options are year-valued and what years they carry. -/
def scannedYear (v : Option String) : Option (Option Int) :=
  match v with
  | some s =>
    if jsIncludes s "year" then some (parseIntJS (jsReplaceFirst (jsTrim s) "year-" ""))
    else none
  | none => none

/-- Embedding of checkAmazonAuth (amazonApi.ts:35-74).  The fetch of the
order-history page (and anything else thrown inside the try block before
the document is in hand) is the `fetched` argument; the returned list
collects the debugLog strings the function emits on that path.  The
response-status log line is reproduced from the document's statusCode
field. -/
def checkAmazonAuth (fetched : Except String AuthDoc) : AmazonInfo × List String :=
  match fetched with
  | Except.error e =>
      (⟨AuthStatus.Failure, none⟩,
       ["Checking Amazon auth", "Amazon auth failed with error: " ++ e])
  | Except.ok doc =>
      let logs0 := ["Checking Amazon auth", "Got Amazon auth response" ++ toString doc.statusCode]
      if doc.signInCount > 0 then
        (⟨AuthStatus.NotLoggedIn, none⟩, logs0 ++ ["Amazon auth failed"])
      else
        let yearOptions := yearOptionsOf doc.timeFilterOptions
        let lowestYear := jsMinInts (yearOptions.map parseIntJS)
        (⟨AuthStatus.Success, some lowestYear⟩, logs0 ++ ["Amazon auth success"])

/-- Embedding of WalmartProvider.doCheckAuth (part_000:17-44); same
structure as the Amazon probe with the Walmart sign-in selector, and the
only debugLog call sits in the catch block. -/
def walmartDoCheckAuth (fetched : Except String AuthDoc) : AmazonInfo × List String :=
  match fetched with
  | Except.error e =>
      (⟨AuthStatus.Failure, none⟩, ["Walmart auth failed with error: " ++ e])
  | Except.ok doc =>
      if doc.signInCount > 0 then
        (⟨AuthStatus.NotLoggedIn, none⟩, [])
      else
        let yearOptions := yearOptionsOf doc.timeFilterOptions
        let lowestYear := jsMinInts (yearOptions.map parseIntJS)
        (⟨AuthStatus.Success, some lowestYear⟩, [])

/-- Matching core of the regex /.*orderID=([^&#]+).*/ used by
orderListFromPage (amazonApi.ts:152-155): with the greedy leading .*, the
regex matches at the last occurrence of "orderID=" that is followed by at
least one character other than one of the characters matched by [^&#]'s
complement, and group 1 captures the maximal such run.  Returns the
capture, none when the regex does not match. -/
def amazonIdCore : List Char → Option (List Char)
  | [] => none
  | c :: rest =>
    let here :=
      if List.isPrefixOf "orderID=".data (c :: rest) then
        let cap := ((c :: rest).drop 8).takeWhile (fun ch => ch != '&' && ch != '#')
        if cap.isEmpty then none else some cap
      else none
    match amazonIdCore rest with
    | some l => some l
    | none => here

/-- JavaScript href.replace(/.*orderID=([^&#]+).*/, "$1") on a string with
no newline: the whole string is replaced by the capture when the regex
matches, and replace returns the string unchanged when it does not. -/
def amazonExtractOrderId (href : String) : String :=
  match amazonIdCore href.data with
  | some cap => String.mk cap
  | none => href

/-- Matching core of the regex /.*orders\/([^/]+)\/.*/ used by
WalmartProvider.orderListFromPage (part_000:110): the regex matches at the
last occurrence of "orders/" followed by a nonempty run of non-slash
characters that is itself followed by a slash; group 1 captures that
run. -/
def walmartIdCore : List Char → Option (List Char)
  | [] => none
  | c :: rest =>
    let here :=
      if List.isPrefixOf "orders/".data (c :: rest) then
        let after := (c :: rest).drop 7
        let cap := after.takeWhile (fun ch => ch != '/')
        if cap.isEmpty || cap.length == after.length then none else some cap
      else none
    match walmartIdCore rest with
    | some l => some l
    | none => here

/-- JavaScript returnLink.replace(/.*orders\/([^/]+)\/.*/, "$1"): the
capture when the regex matches, the original string otherwise. -/
def walmartExtractOrderId (link : String) : String :=
  match walmartIdCore link.data with
  | some cap => String.mk cap
  | none => link

/-- Word character of the JavaScript \w class. -/
def isWordChar (c : Char) : Bool :=
  c.isAlpha || c.isDigit || c == '_'

/-- Attempt of the regex (\w+ \d{2}, \d{4}) followed by a space and one of
the given literal alternatives, anchored at the start of the list: \w+ is
greedy and the character after it must be a space, so the maximal word run
is the only candidate.  Returns group 1 (the date). -/
def dateCaptureAt (suffixes : List String) (cs : List Char) : Option (List Char) :=
  let w := cs.takeWhile isWordChar
  if w.isEmpty then none
  else
    match cs.drop w.length with
    | ' ' :: d1 :: d2 :: ',' :: ' ' :: y1 :: y2 :: y3 :: y4 :: rest =>
      if d1.isDigit && d2.isDigit && y1.isDigit && y2.isDigit && y3.isDigit && y4.isDigit
          && suffixes.any (fun suf => List.isPrefixOf (' ' :: suf.data) rest) then
        some (w ++ ' ' :: d1 :: d2 :: ',' :: ' ' :: [y1, y2, y3, y4])
      else none
    | _ => none

/-- Leftmost match of the date regex: JavaScript String.prototype.match
scans start positions left to right and returns the first match. -/
def findDateCapture (suffixes : List String) : List Char → Option (List Char)
  | [] => none
  | c :: rest =>
    match dateCaptureAt suffixes (c :: rest) with
    | some cap => some cap
    | none => findDateCapture suffixes rest

/-- JavaScript s.match(/(\w+ \d{2}, \d{4}) suffix/) followed by
`dateMatch ? dateMatch[1] : ""`: group 1 of the first match, or the empty
string when there is no match.  `suffixes` lists the alternatives of the
literal tail ("purchase" for the listing regex, "order"/"purchase" for
the bill regex). -/
def jsDateMatchOrEmpty (suffixes : List String) (s : String) : String :=
  match findDateCapture suffixes s.data with
  | some cap => String.mk cap
  | none => ""

/-- One .js-order-card element of an Amazon listing page, at the
granularity orderListFromPage queries it: the href of the first anchor
matched by a[href*="orderID="] (none when the card has no such anchor),
and the text of the first .order-info .value element. -/
structure AmazonOrderCard where
  orderLink : Option String
  dateText : String
deriving DecidableEq, Repr

/-- Amazon listing page document: the text of each .a-pagination li
element, and the .js-order-card entries. -/
structure AmazonListingDoc where
  paginationTexts : List String
  orderCards : List AmazonOrderCard
deriving DecidableEq, Repr

/-- Loop body of orderListFromPage (amazonApi.ts:150-166) for one card:
the order pushed for it, or none when the card has no orderID anchor
(id stays undefined and fails the `if (id)` test) or the extracted id is
the empty string. -/
def amazonCardOrder (card : AmazonOrderCard) : Option Order :=
  match card.orderLink with
  | none => none
  | some href =>
    let id := amazonExtractOrderId href
    if id = "" then none
    else some ⟨id, jsTrim card.dateText, none, none⟩

/-- Embedding of orderListFromPage (amazonApi.ts:148-168), returning the
extracted orders together with the debugLog strings emitted.  The only
debugLog in the function sits in a catch block, and the loop body performs
only non-throwing string and selector operations, so no branch of the loop
appends a log entry: a card without a recoverable id is skipped silently. -/
def amazonOrderListFromPage (doc : AmazonListingDoc) : List Order × List String :=
  doc.orderCards.foldl (fun acc card =>
    match amazonCardOrder card with
    | some o => (acc.1 ++ [o], acc.2)
    | none => acc)
    ([], [])

/-- Does this card let orderListFromPage recover a (truthy) identifier?
A card with an orderID anchor always does unless its href is the empty
string: when the regex fails to match, replace returns the nonempty href
itself and the `if (id)` test still passes. -/
def amazonRecoverable (card : AmazonOrderCard) : Bool :=
  match card.orderLink with
  | none => false
  | some href => amazonExtractOrderId href != ""

/-- One orderGroup element of a Walmart listing page: the href of the
a[link-identifier="Start a return"] anchor if present, and the text of the
h3 elements inside the group. -/
structure WalmartOrderGroup where
  returnLink : Option String
  h3Text : String
deriving DecidableEq, Repr

/-- Walmart listing page document: the orderGroup-* entries. -/
structure WalmartListingDoc where
  orderGroups : List WalmartOrderGroup
deriving DecidableEq, Repr

/-- Loop body of WalmartProvider.orderListFromPage (part_000:107-131) for
one group: the order pushed for it (id from the return link's regex, the
in-store flag from orderSource=STORE in the same link, the date from the
h3 regex), or none when the return link is absent or the extracted id is
the empty falsy string. -/
def walmartGroupOrder (g : WalmartOrderGroup) : Option Order :=
  match g.returnLink with
  | none => none
  | some link =>
    let id := walmartExtractOrderId link
    if id = "" then none
    else
      some ⟨id, jsDateMatchOrEmpty ["purchase"] (jsTrim g.h3Text),
        some (jsIncludes link "orderSource=STORE"), none⟩

/-- Is this group's identifier unrecoverable (`if (!id)` taken)? -/
def walmartUnrecoverable (g : WalmartOrderGroup) : Bool :=
  match g.returnLink with
  | none => true
  | some link => walmartExtractOrderId link == ""

/-- Per-group debugLog entry of WalmartProvider.orderListFromPage: the
"No order ID found" diagnostic exactly when the id is unrecoverable. -/
def walmartGroupLog (g : WalmartOrderGroup) : Option String :=
  if walmartUnrecoverable g then some "No order ID found in orderGroup-* element"
  else none

/-- Embedding of WalmartProvider.orderListFromPage (part_000:104-134),
returning the extracted orders and the debugLog strings emitted: a group
whose identifier is unrecoverable is skipped with the diagnostic
"No order ID found in orderGroup-* element". -/
def walmartOrderListFromPage (doc : WalmartListingDoc) : List Order × List String :=
  doc.orderGroups.foldl (fun acc g =>
    match walmartGroupOrder g with
    | some o => (acc.1 ++ [o], acc.2)
    | none => (acc.1, acc.2 ++ ["No order ID found in orderGroup-* element"]))
    ([], [])

/-- Embedding of moneyToNumber (amazonApi.ts:238-240):
parseFloat(money?.replace(absoluteValue ? /[$\s-]/g : /[$\s]/g, "")).
The global character-class replace deletes every dollar sign and
whitespace character, and with absoluteValue (the default at every call
site) every minus sign as well; an undefined argument reaches parseFloat
as the string "undefined", which parses to NaN. -/
def moneyToNumber (money : Option String) (absoluteValue : Bool) : JSNum :=
  match money with
  | none => JSNum.nan
  | some m =>
      parseFloatJS (String.mk (m.data.filter (fun c =>
        !(c == '$' || c.isWhitespace || (absoluteValue && c == '-')))))

/-- Walmart amount stripping, text.replace(/[^0-9.-]+/g, "") at
part_000:151 and part_000:177: the global replace deletes every character
that is not a digit, a dot or a minus sign. -/
def walmartStripMoney (s : String) : String :=
  String.mk (s.data.filter (fun c => c.isDigit || c == '.' || c == '-'))

/-- Walmart amount parsing, `text ? parseFloat(text.replace(/[^0-9.-]+/g,
"")) : 0` (part_000:151, part_000:177), applied to the already-trimmed
text: the empty string is falsy and yields 0. -/
def walmartMoney (t : String) : JSNum :=
  if t = "" then JSNum.num 0 else parseFloatJS (walmartStripMoney t)

/-- One .yohtmlc-item element of an Amazon detail page: the text of its
first .a-link-normal element and the text of its first .a-color-price
element (cheerio text() of an empty selection is the empty string). -/
structure AmazonItemEl where
  linkText : String
  priceText : String
deriving DecidableEq, Repr

/-- Amazon order-detail document as fetchOrderTransactions queries it:
the item elements, the text of the gift-card subtotal column (empty when
the selector matches nothing), and the text of each .a-row inside the
first .a-expander-inline-content element. -/
structure AmazonDetailDoc where
  itemEls : List AmazonItemEl
  giftCardText : String
  expanderRows : List String
deriving DecidableEq, Repr

/-- Item scan of fetchOrderTransactions (amazonApi.ts:177-187): title and
price per element, entries with an empty (falsy) title skipped.  Amazon
items carry no order id and no refunded flag. -/
def amazonDetailItems (doc : AmazonDetailDoc) : List Item :=
  doc.itemEls.filterMap (fun el =>
    let title := jsTrim el.linkText
    let price := moneyToNumber (some el.priceText) true
    if title = "" then none else some ⟨none, title, price, none⟩)

/-- Transaction scan over the expander rows (amazonApi.ts:202-230).  Each
row's text is trimmed and its newlines removed; a row containing
"Items shipped" contributes a non-refund transaction and a row containing
"Refund: Completed" a refund transaction, both carrying the full `items`
list.  `split(..)[1]` is undefined when the separator is absent, and the
subsequent .trim() / .split() on it throws a TypeError, which the
embedding surfaces as Except.error; the amount text after the dollar sign
may be absent, in which case moneyToNumber receives undefined and yields
NaN. -/
def amazonRowTransactions (order : Order) (items : List Item)
    (rows : List String) : Except String (List OrderTransaction) :=
  rows.foldlM (fun acc line0 =>
    let line := jsReplaceAll (jsTrim line0) "\n" ""
    if jsIncludes line "Items shipped" then
      match jsSplitGet1 line "shipped:" with
      | none => Except.error "TypeError"
      | some seg =>
        let dateAndAmount := jsTrim seg
        let date := jsTrim (jsSplitGet0 dateAndAmount "-")
        match jsSplitGet1 dateAndAmount "-" with
        | none => Except.error "TypeError"
        | some part =>
          let amount := moneyToNumber (jsSplitGet1 part "$") true
          Except.ok (acc ++ [⟨order.id, date, amount, false, items⟩])
    else if jsIncludes line "Refund: Completed" then
      match jsSplitGet1 line ": Completed" with
      | none => Except.error "TypeError"
      | some seg =>
        let dateAndAmount := jsTrim seg
        let date := jsTrim (jsSplitGet0 dateAndAmount "-")
        match jsSplitGet1 dateAndAmount "-" with
        | none => Except.error "TypeError"
        | some part =>
          let amount := moneyToNumber (jsSplitGet1 part "$") true
          Except.ok (acc ++ [⟨order.id, date, amount, true, items⟩])
    else Except.ok acc)
    []

/-- Embedding of fetchOrderTransactions (amazonApi.ts:170-236) applied to
an already-fetched detail document: extract the items, push a non-refund
gift-card transaction when the parsed gift-card amount is truthy, then
scan the expander rows; every transaction receives the full item list.
An Except.error models a TypeError thrown by the row scan. -/
def amazonFetchOrderTransactions (order : Order) (doc : AmazonDetailDoc) :
    Except String Order :=
  let items := amazonDetailItems doc
  let giftCardAmount := moneyToNumber (some doc.giftCardText) true
  let txs0 : List OrderTransaction :=
    if giftCardAmount.truthy then [⟨order.id, order.date, giftCardAmount, false, items⟩]
    else []
  (amazonRowTransactions order items doc.expanderRows).map (fun rowTxs =>
    { order with transactions := some (txs0 ++ rowTxs) })

/-- One itemtile-stack element of a Walmart detail page: the text of its
first productName element, the text of its first price element and the
text of the category label of its closest category-accordion ancestor
(all empty strings when the selector matches nothing). -/
structure WalmartItemTile where
  productName : String
  priceText : String
  categoryLabel : String
deriving DecidableEq, Repr

/-- One orderGroup-* / .print-bill-body block of a Walmart detail page:
the text of its h1.print-bill-date, of the last .bill-order-total-payment
h2, and of its category-label elements. -/
structure WalmartBillBlock where
  billDateText : String
  amountText : String
  categoryLabel : String
deriving DecidableEq, Repr

/-- Walmart order-detail document as fetchOrderTransactions queries it. -/
structure WalmartDetailDoc where
  itemTiles : List WalmartItemTile
  billBlocks : List WalmartBillBlock
deriving DecidableEq, Repr

/-- Item scan of WalmartProvider.fetchOrderTransactions
(part_000:146-167): title, price (0 when the price text is empty) and the
refunded flag read from the enclosing category label; entries with an
empty title are skipped. -/
def walmartDetailItems (order : Order) (doc : WalmartDetailDoc) : List Item :=
  doc.itemTiles.filterMap (fun tile =>
    let title := jsTrim tile.productName
    let price := walmartMoney (jsTrim tile.priceText)
    let isRefunded := jsIncludes tile.categoryLabel "Refunded"
    if title = "" then none else some ⟨some order.id, title, price, some isRefunded⟩)

/-- Embedding of WalmartProvider.fetchOrderTransactions
(part_000:136-195) applied to an already-fetched detail document: each
bill block yields one transaction whose items are the extracted items
filtered by matching refunded flag.  The function body performs only
non-throwing operations, so it is total. -/
def walmartFetchOrderTransactions (order : Order) (doc : WalmartDetailDoc) : Order :=
  let items := walmartDetailItems order doc
  let txs := doc.billBlocks.map (fun b =>
    let date := jsDateMatchOrEmpty ["order", "purchase"] (jsTrim b.billDateText)
    let amount := walmartMoney (jsTrim b.amountText)
    let refund := jsIncludes b.categoryLabel "Refunded"
    (⟨order.id, date, amount, refund,
      items.filter (fun it => it.refunded == some refund)⟩ : OrderTransaction))
  { order with transactions := some txs }

/-- End-page scan of fetchOrders (amazonApi.ts:90-99): over each
.a-pagination li text, `Number.isNaN(page)` is applied to a string and is
therefore always false, so every entry is parseInt-ed; a NaN parse fails
the `numPage > endPage` comparison and is ignored, and endPage starts
at 1. -/
def amazonComputeEndPage (texts : List String) : Int :=
  texts.foldl (fun acc t =>
    match parseIntJS (jsTrim t) with
    | some n => if n > acc then n else acc
    | none => acc)
    1

/-- End-page computation of WalmartProvider.fetchOrders (part_000:55-58):
endPage starts at 1 and `if (maxPages && maxPages < endPage)` can only
lower it (0 is falsy and skips the branch), so no truthy maxPages value
ever raises the page count above 1. -/
def walmartComputeEndPage (maxPages : Option Int) : Int :=
  match maxPages with
  | some m => if m ≠ 0 ∧ m < 1 then m else 1
  | none => 1

/-- Page numbers of the sequential `for (let i = 2; i <= endPage; i++)`
loop shared by both providers' fetchOrders. -/
def extraPages (endPage : Int) : List Nat :=
  List.range' 2 (endPage - 1).toNat

/-- Detail-download loop shared by fetchOrders (amazonApi.ts:114-129) and
WalmartProvider.fetchOrders (part_000:72-87): each order's processOrder
task awaits the detail fetch, pushes the enriched order on success, and
on exception debug-logs the caught value once and drops the order; after
every task the progress callback receives the running completed count
against `total`.  Throttle.all serialises each task's post-completion
bookkeeping, so the tasks' effects are those of processing the orders one
at a time; the claims proved below are invariant under the completion
order.  Arguments: the detail-fetch outcome function, the progress phase,
the total used in progress snapshots, the accumulated (orders, progress
snapshots, error logs), and the remaining orders. -/
def detailLoop (detail : Order → Except String Order) (phase : ProgressPhase)
    (total : Int) :
    List Order × List ProgressState × List String → List Order →
    List Order × List ProgressState × List String
  | acc, [] => acc
  | acc, o :: rest =>
    match detail o with
    | Except.ok od =>
        detailLoop detail phase total
          (acc.1 ++ [od],
           acc.2.1 ++ [⟨phase, total, (acc.1.length : Int) + 1⟩],
           acc.2.2) rest
    | Except.error e =>
        detailLoop detail phase total
          (acc.1,
           acc.2.1 ++ [⟨phase, total, (acc.1.length : Int)⟩],
           acc.2.2 ++ [e]) rest

/-- Detail-download phase over a discovered order list: run every
processOrder task starting from empty accumulators. -/
def runDetailPhase (detail : Order → Except String Order)
    (phase : ProgressPhase) (orders : List Order) :
    List Order × List ProgressState × List String :=
  detailLoop detail phase (orders.length : Int) ([], [], []) orders

/-- Fetch environment of one Amazon fetchOrders invocation: the parsed
listing document per page number (page 1 is the initial order-history
URL, page i ≥ 2 the URL with startIndex = (i-1)*10 requested by
processOrders), and the outcome of `await fetchOrderTransactions(order)`
per order (an Except.error models a thrown network or parse error). -/
structure AmazonEnv where
  listing : Nat → AmazonListingDoc
  detail : Order → Except String Order

/-- Listing discovery of fetchOrders (amazonApi.ts:90-112): page 1's
records, then pages 2..endPage fetched sequentially in page order with
records concatenated in that order. -/
def amazonDiscoveredOrders (env : AmazonEnv) : List Order :=
  let endPage := amazonComputeEndPage (env.listing 1).paginationTexts
  (extraPages endPage).foldl
    (fun acc i => acc ++ (amazonOrderListFromPage (env.listing i)).1)
    ((amazonOrderListFromPage (env.listing 1)).1)

/-- Embedding of fetchOrders (amazonApi.ts:76-132): scan the pagination
control for the end page, emit the page-scan progress snapshots, discover
the listing records sequentially, then run the bounded-concurrency detail
phase.  Returns the aggregated orders, the progress snapshots in callback
order, and the error-log entries of failed detail tasks.  The informative
debugLog lines (URLs, statuses, counts) are omitted: only the catch-block
log of processOrder is tracked, as the diagnostic record of a failure. -/
def amazonFetchOrders (env : AmazonEnv) :
    List Order × List ProgressState × List String :=
  let endPage := amazonComputeEndPage (env.listing 1).paginationTexts
  let scanProg : List ProgressState :=
    [⟨ProgressPhase.AmazonPageScan, endPage, 0⟩,
     ⟨ProgressPhase.AmazonPageScan, endPage, 1⟩] ++
    (extraPages endPage).map (fun i => ⟨ProgressPhase.AmazonPageScan, endPage, (i : Int)⟩)
  let orders := amazonDiscoveredOrders env
  let res := runDetailPhase env.detail ProgressPhase.AmazonOrderDownload orders
  (res.1, scanProg ++ res.2.1, res.2.2)

/-- Fetch environment of one WalmartProvider.fetchOrders invocation,
analogous to AmazonEnv. -/
structure WalmartEnv where
  listing : Nat → WalmartListingDoc
  detail : Order → Except String Order

/-- Listing discovery of WalmartProvider.fetchOrders (part_000:55-70):
page 1's records, then pages 2..endPage (endPage never exceeds 1, so the
loop body is dead); the listing-extraction diagnostics are collected
alongside. -/
def walmartDiscoveredOrders (env : WalmartEnv) (maxPages : Option Int) :
    List Order × List String :=
  let endPage := walmartComputeEndPage maxPages
  (extraPages endPage).foldl
    (fun acc i =>
      let page := walmartOrderListFromPage (env.listing i)
      (acc.1 ++ page.1, acc.2 ++ page.2))
    (walmartOrderListFromPage (env.listing 1))

/-- Embedding of WalmartProvider.fetchOrders (part_000:46-90): same
shape as the Amazon pipeline, with the page count taken from
walmartComputeEndPage instead of a pagination scan.  Returns the
aggregated orders, the progress snapshots, and the logs (listing
diagnostics followed by detail-task error logs). -/
def walmartFetchOrders (env : WalmartEnv) (maxPages : Option Int) :
    List Order × List ProgressState × List String :=
  let endPage := walmartComputeEndPage maxPages
  let scanProg : List ProgressState :=
    [⟨ProgressPhase.WalmartPageScan, endPage, 0⟩,
     ⟨ProgressPhase.WalmartPageScan, endPage, 1⟩] ++
    (extraPages endPage).map (fun i => ⟨ProgressPhase.WalmartPageScan, endPage, (i : Int)⟩)
  let disc := walmartDiscoveredOrders env maxPages
  let res := runDetailPhase env.detail ProgressPhase.WalmartOrderDownload disc.1
  (res.1, scanProg ++ res.2.1, disc.2 ++ res.2.2)

/-- Scheduler state of the bounded-concurrency executor: counts of tasks
not yet started, currently in flight, and completed. -/
structure ThrottleState where
  pending : Nat
  inFlight : Nat
  completed : Nat
deriving DecidableEq, Repr

/-- Modelled from the spec: Throttle.all of the promise-parallel-throttle
library (called at amazonApi.ts:129 and part_000:87, with no options, so
with the library's default in-flight ceiling) is not part of this
repository's sources; §4.4/§5 of the spec describe it as a fixed-size
worker-pool executor that starts a queued task only while fewer than the
ceiling L are in flight.  `start` launches a pending task when capacity
allows; `finish` retires an in-flight task. -/
inductive ThrottleStep (L : Nat) : ThrottleState → ThrottleState → Prop where
  | start (p f d : Nat) : f < L → 0 < p →
      ThrottleStep L ⟨p, f, d⟩ ⟨p - 1, f + 1, d⟩
  | finish (p f d : Nat) : 0 < f →
      ThrottleStep L ⟨p, f, d⟩ ⟨p, f - 1, d + 1⟩

/-- Executions of the bounded executor: reflexive-transitive closure of
its steps. -/
def ThrottleReach (L : Nat) : ThrottleState → ThrottleState → Prop :=
  Relation.ReflTransGen (ThrottleStep L)

/-- Initial scheduler state for K detail-fetch tasks. -/
def throttleInit (K : Nat) : ThrottleState := ⟨K, 0, 0⟩

/-- Error component of a detail-fetch outcome (the value debugLog receives
in processOrder's catch block). -/
def exceptErr (x : Except String Order) : Option String :=
  match x with
  | Except.error e => some e
  | Except.ok _ => none

/-- Transactions of a fetchOrderTransactions outcome (empty on a thrown
error or an unenriched order). -/
def resultTransactions (r : Except String Order) : List OrderTransaction :=
  match r with
  | Except.ok o => o.transactions.getD []
  | Except.error _ => []

/-- startIndex query parameter of processOrders (amazonApi.ts:135 and
part_000:93): page i is requested at record offset (i-1)*10. -/
def pageStartIndex (page : Nat) : Nat := (page - 1) * 10

/-- Listing card with a well-formed order link, used by the concrete
scenarios below. -/
def exCard (k : Nat) : AmazonOrderCard :=
  ⟨some ("x?orderID=A" ++ toString k ++ "&r=1"), "May 01, 2024"⟩

/-- Amazon environment of the end-to-end failure scenario: one listing
page with 13 well-formed cards, and a detail fetch that throws a network
error for exactly the order A5. -/
def exEnvSingleFail : AmazonEnv :=
  ⟨fun _ => ⟨["1"], (List.range 13).map exCard⟩,
   fun o => if o.id = "A5" then Except.error "network error" else Except.ok o⟩

/-- Amazon environment of the two-page scenario: page 1 carries 10 cards
and a pagination control reading 1, 2, Next; page 2 carries 3 cards; all
detail fetches succeed. -/
def exEnvTwoPages : AmazonEnv :=
  ⟨fun n =>
      if n = 1 then ⟨["1", "2", "Next"], (List.range 10).map exCard⟩
      else ⟨[], (List.range 3).map (fun k => exCard (10 + k))⟩,
   fun o => Except.ok o⟩

/-- Walmart listing group with a well-formed return link. -/
def exWGroup (k : Nat) : WalmartOrderGroup :=
  ⟨some ("https://w.example/orders/W" ++ toString k ++ "/return"), "May 02, 2024 purchase"⟩

/-- Walmart environment of the two-page scenario: 10 groups on page 1,
3 on page 2, all detail fetches succeeding. -/
def exWEnv : WalmartEnv :=
  ⟨fun n =>
      if n = 1 then ⟨(List.range 10).map exWGroup⟩
      else ⟨(List.range 3).map (fun k => exWGroup (10 + k))⟩,
   fun o => Except.ok o⟩

/-- Walmart environment of the end-to-end failure scenario: one listing
page with 13 well-formed groups, and a detail fetch that throws a network
error for exactly the order W5. -/
def exWEnvSingleFail : WalmartEnv :=
  ⟨fun _ => ⟨(List.range 13).map exWGroup⟩,
   fun o => if o.id = "W5" then Except.error "network error" else Except.ok o⟩

/-- Order whose Amazon detail page is exDetailAmazon. -/
def exOrderAmazon : Order := ⟨"111-222", "May 1, 2024", none, none⟩

/-- Amazon detail document with two items, no gift-card charge, one
shipment row and one completed-refund row. -/
def exDetailAmazon : AmazonDetailDoc :=
  ⟨[⟨"Widget", "$5.00"⟩, ⟨"Gadget", "$7.00"⟩], "",
   ["Items shipped: May 1 - $12.00", "Refund: Completed May 9 - $5.00"]⟩

/-- Order whose Walmart detail page is exDetailWalmart. -/
def exOrderWalmart : Order := ⟨"W1", "", some false, none⟩

/-- Walmart detail document of the partition scenario: two non-refunded
item tiles, one tile under a Refunded category, one non-refund bill block
and one refund bill block. -/
def exDetailWalmart : WalmartDetailDoc :=
  ⟨[⟨"A", "$1.00", "Delivered"⟩, ⟨"B", "$2.00", "Delivered"⟩,
    ⟨"C", "$3.00", "Refunded on May 9"⟩],
   [⟨"May 02, 2024 order", "$3.00", "Delivered"⟩,
    ⟨"May 09, 2024 order", "$3.00", "Refunded"⟩]⟩

/-! Helper lemmas. -/

/-- Orders accumulated by the detail loop: the accumulator followed by the
successful outcomes in task order. -/
theorem detailLoop_fst (d : Order → Except String Order) (phase : ProgressPhase)
    (total : Int) (l : List Order) :
    ∀ acc, (detailLoop d phase total acc l).1 =
      acc.1 ++ l.filterMap (fun o => (d o).toOption) := by
  induction l with
  | nil => intro acc; simp [detailLoop]
  | cons o rest ih =>
    intro acc
    cases h : d o with
    | ok od => simp [detailLoop, h, ih, Except.toOption]
    | error e => simp [detailLoop, h, ih, Except.toOption]

/-- Error logs accumulated by the detail loop: the accumulator followed by
the caught errors in task order. -/
theorem detailLoop_errs (d : Order → Except String Order) (phase : ProgressPhase)
    (total : Int) (l : List Order) :
    ∀ acc, (detailLoop d phase total acc l).2.2 =
      acc.2.2 ++ l.filterMap (fun o => exceptErr (d o)) := by
  induction l with
  | nil => intro acc; simp [detailLoop]
  | cons o rest ih =>
    intro acc
    cases h : d o with
    | ok od => simp [detailLoop, h, ih, exceptErr]
    | error e => simp [detailLoop, h, ih, exceptErr]

/-- Successful and throwing detail tasks add up to the task count. -/
theorem detail_successes_add_errors (d : Order → Except String Order)
    (l : List Order) :
    (l.filterMap (fun o => (d o).toOption)).length +
      (l.filterMap (fun o => exceptErr (d o))).length = l.length := by
  induction l with
  | nil => simp
  | cons o rest ih =>
    simp only [Except.toOption, exceptErr] at ih ⊢
    cases h : d o with
    | ok od => simp [List.filterMap_cons, h]; omega
    | error e => simp [List.filterMap_cons, h]; omega

/-- Amazon listing extraction in closed form: the per-card results in card
order, and no log output on any path. -/
theorem amazonOrderListFromPage_spec (doc : AmazonListingDoc) :
    amazonOrderListFromPage doc =
      (doc.orderCards.filterMap amazonCardOrder, []) := by
  have go : ∀ (cards : List AmazonOrderCard) (acc : List Order × List String),
      cards.foldl (fun acc card =>
        match amazonCardOrder card with
        | some o => (acc.1 ++ [o], acc.2)
        | none => acc) acc =
      (acc.1 ++ cards.filterMap amazonCardOrder, acc.2) := by
    intro cards
    induction cards with
    | nil => intro acc; simp
    | cons c rest ih =>
      intro acc
      cases h : amazonCardOrder c with
      | some o => simp [h, ih]
      | none => simp [h, ih]
  simpa [amazonOrderListFromPage] using go doc.orderCards ([], [])

/-- Walmart listing extraction in closed form: the per-group results and
the per-group diagnostics, both in group order. -/
theorem walmartOrderListFromPage_spec (doc : WalmartListingDoc) :
    walmartOrderListFromPage doc =
      (doc.orderGroups.filterMap walmartGroupOrder,
       doc.orderGroups.filterMap walmartGroupLog) := by
  have hlog : ∀ g, walmartGroupLog g =
      match walmartGroupOrder g with
      | some _ => none
      | none => some "No order ID found in orderGroup-* element" := by
    intro g
    cases hg : g.returnLink with
    | none => simp [walmartGroupLog, walmartGroupOrder, walmartUnrecoverable, hg]
    | some link =>
      by_cases hid : walmartExtractOrderId link = "" <;>
        simp [walmartGroupLog, walmartGroupOrder, walmartUnrecoverable, hg, hid]
  have go : ∀ (gs : List WalmartOrderGroup) (acc : List Order × List String),
      gs.foldl (fun acc g =>
        match walmartGroupOrder g with
        | some o => (acc.1 ++ [o], acc.2)
        | none => (acc.1, acc.2 ++ ["No order ID found in orderGroup-* element"])) acc =
      (acc.1 ++ gs.filterMap walmartGroupOrder, acc.2 ++ gs.filterMap walmartGroupLog) := by
    intro gs
    induction gs with
    | nil => intro acc; simp
    | cons g rest ih =>
      intro acc
      cases h : walmartGroupOrder g with
      | some o => simp [h, ih, hlog g]
      | none => simp [h, ih, hlog g]
  simpa [walmartOrderListFromPage] using go doc.orderGroups ([], [])

/-- Generic count of filterMap hits. -/
theorem length_filterMap_eq_count {α β : Type} (f : α → Option β) (l : List α) :
    (l.filterMap f).length = (l.filter (fun a => (f a).isSome)).length := by
  induction l with
  | nil => simp
  | cons a rest ih =>
    cases h : f a with
    | some b => simp [h, ih]
    | none => simp [h, ih]

/-! C3 — bounded-concurrency ceiling. -/

/-- C3: for every concurrency ceiling L and task count K, every state the
bounded executor can reach from its initial state keeps at most L detail
fetches in flight: the executor never has more than L requests running,
in particular never one per record when K exceeds L. -/
theorem throttle_inFlight_le_ceiling (L K : Nat) (s : ThrottleState)
    (h : ThrottleReach L (throttleInit K) s) : s.inFlight ≤ L := by
  induction h with
  | refl => exact Nat.zero_le L
  | tail hr step ih =>
    cases step with
    | start p f d hf hp => exact hf
    | finish p f d hf =>
      simp only at ih ⊢
      omega

/-- Witness for C3: with ceiling 2 and 3 tasks, the state reached by
starting two tasks has 2 ≤ 2 in flight. -/
theorem throttle_inFlight_witness : (⟨1, 2, 0⟩ : ThrottleState).inFlight ≤ 2 :=
  throttle_inFlight_le_ceiling 2 3 ⟨1, 2, 0⟩
    (Relation.ReflTransGen.tail
      (Relation.ReflTransGen.tail Relation.ReflTransGen.refl
        (ThrottleStep.start 3 0 0 (by decide) (by decide)))
      (ThrottleStep.start 2 1 0 (by decide) (by decide)))

/-! C8 — sign-in marker forces NotLoggedIn. -/

/-- C8: whenever the fetched order-history document matches the provider's
sign-in selector at least once, both providers' auth probes return
NotLoggedIn, regardless of the document's other content (status code,
year options). -/
theorem auth_sign_in_marker_not_logged_in (doc : AuthDoc)
    (h : 0 < doc.signInCount) :
    (checkAmazonAuth (Except.ok doc)).1.status = AuthStatus.NotLoggedIn ∧
    (walmartDoCheckAuth (Except.ok doc)).1.status = AuthStatus.NotLoggedIn := by
  constructor <;> simp [checkAmazonAuth, walmartDoCheckAuth, h]

/-- Witness for C8: a document whose sign-in selector matches once. -/
theorem auth_sign_in_marker_witness :
    (checkAmazonAuth (Except.ok ⟨200, 1, [some "year-2020"]⟩)).1.status =
      AuthStatus.NotLoggedIn ∧
    (walmartDoCheckAuth (Except.ok ⟨200, 1, [some "year-2020"]⟩)).1.status =
      AuthStatus.NotLoggedIn :=
  auth_sign_in_marker_not_logged_in ⟨200, 1, [some "year-2020"]⟩ (by decide)

/-! C9 — probe exceptions become Failure values. -/

/-- C9: for every internally raised network or parse exception e, each
auth probe catches it, records exactly one diagnostic entry mentioning it,
and returns Failure as a value; the probe is a total function, so no
exception propagates to the caller. -/
theorem auth_probe_exception_returns_failure (e : String) :
    checkAmazonAuth (Except.error e) =
      (⟨AuthStatus.Failure, none⟩,
       ["Checking Amazon auth", "Amazon auth failed with error: " ++ e]) ∧
    walmartDoCheckAuth (Except.error e) =
      (⟨AuthStatus.Failure, none⟩, ["Walmart auth failed with error: " ++ e]) :=
  ⟨rfl, rfl⟩

/-! C10 — empty year-option set yields Success with infinity. -/

/-- C10: on a document with no sign-in marker whose time-filter control
yields no year-valued option, both probes return Success and a
startingYear of positive infinity (Math.min of no arguments), rather than
omitting the field, failing or throwing. -/
theorem auth_probe_empty_years_infinity (doc : AuthDoc)
    (h0 : doc.signInCount = 0)
    (h1 : yearOptionsOf doc.timeFilterOptions = []) :
    (checkAmazonAuth (Except.ok doc)).1 =
      ⟨AuthStatus.Success, some JSNum.posInf⟩ ∧
    (walmartDoCheckAuth (Except.ok doc)).1 =
      ⟨AuthStatus.Success, some JSNum.posInf⟩ := by
  constructor <;> simp [checkAmazonAuth, walmartDoCheckAuth, h0, h1, jsMinInts]

/-- Witness for C10: a signed-in document whose only option is not
year-valued. -/
theorem auth_probe_empty_years_witness :
    (checkAmazonAuth (Except.ok ⟨200, 0, [some "last30days", none]⟩)).1 =
      ⟨AuthStatus.Success, some JSNum.posInf⟩ ∧
    (walmartDoCheckAuth (Except.ok ⟨200, 0, [some "last30days", none]⟩)).1 =
      ⟨AuthStatus.Success, some JSNum.posInf⟩ :=
  auth_probe_empty_years_infinity ⟨200, 0, [some "last30days", none]⟩ (by decide) (by decide)

/-! C6 — currency parsing. -/

/-- C6 counterexample: moneyToNumber does not handle thousands separators
and does not preserve the sign.  "$1,234.56" yields 1 (parseFloat stops at
the comma, which the replace does not strip), not 1234.56; "-$5.00" yields
5 because the default absolute-value regex strips the minus sign. -/
theorem moneyToNumber_mangles_thousands_and_sign :
    moneyToNumber (some "$1,234.56") true = JSNum.num (mkRat 1 1) ∧
    moneyToNumber (some "-$5.00") true = JSNum.num (mkRat 5 1) ∧
    JSNum.num (mkRat 1 1) ≠ JSNum.num (mkRat 123456 100) ∧
    JSNum.num (mkRat 5 1) ≠ JSNum.num (mkRat (-5) 1) := by
  refine ⟨by decide, by decide, by decide, by decide⟩

/-- C6 amended: Walmart's amount parsing (strip every character outside
[0-9.-], then parseFloat) handles currency symbols, whitespace and
thousands separators and preserves the sign; Amazon's moneyToNumber strips
only dollar signs, whitespace and (by default) minus signs, so commas
corrupt the value and the sign is discarded; malformed or absent input
yields NaN (Walmart's empty amount text yields 0) and parsing never
throws, both functions being total. -/
theorem money_parsing_amended :
    walmartMoney "$1,234.56" = JSNum.num (mkRat 123456 100) ∧
    walmartMoney "-$1,234.56" = JSNum.num (mkRat (-123456) 100) ∧
    walmartMoney "USD 7.25" = JSNum.num (mkRat 725 100) ∧
    walmartMoney "abc" = JSNum.nan ∧
    walmartMoney "" = JSNum.num 0 ∧
    moneyToNumber (some "$ 12.34") true = JSNum.num (mkRat 1234 100) ∧
    moneyToNumber (some "garbage") true = JSNum.nan ∧
    moneyToNumber none true = JSNum.nan ∧
    moneyToNumber (some "$1,234.56") true = JSNum.num (mkRat 1 1) := by
  refine ⟨by decide, by decide, by decide, by decide, by decide, by decide,
    by decide, by decide, by decide⟩

/-! C5 — startingYear is the minimum year option. -/

/-- The year scan parses exactly the per-option scan outcomes: options
without a value or without "year" in it are skipped, the rest are trimmed,
stripped of their first "year-" and parsed. -/
theorem yearOptionsOf_parse (opts : List (Option String)) :
    (yearOptionsOf opts).map parseIntJS = opts.filterMap scannedYear := by
  induction opts with
  | nil => rfl
  | cons v rest ih =>
    cases v with
    | none => simpa [yearOptionsOf, scannedYear, List.filterMap_cons] using ih
    | some s =>
      by_cases hy : jsIncludes s "year" = true
      · simpa [yearOptionsOf, scannedYear, List.filterMap_cons, hy] using ih
      · simp only [Bool.not_eq_true] at hy
        simpa [yearOptionsOf, scannedYear, List.filterMap_cons, hy] using ih

/-- Math.min over a nonempty list of parsed integers is their minimum. -/
theorem jsMinInts_map_some (y : Int) (ys : List Int) :
    jsMinInts ((y :: ys).map some) = JSNum.num ((ys.foldl min y : Int) : ℚ) := by
  have hcont : ∀ l : List Int, ((l.map some).contains (none : Option Int)) = false := by
    intro l
    induction l with
    | nil => rfl
    | cons a t ih => simp
  have hfm : ∀ l : List Int, (l.map some).filterMap id = l := by
    intro l
    induction l with
    | nil => rfl
    | cons a t ih => simp [ih]
  simp [jsMinInts, hcont (y :: ys), hfm (y :: ys)]

/-- C5: on an authenticated document (no sign-in marker) whose time-filter
control contains a non-empty set of year-valued options carrying the years
y :: ys — in document order, each with a value containing "year" that
parses, after trimming and stripping "year-", to its year — interleaved
with any number of options the scan skips (no value attribute, or a value
without "year"), both providers' probes return Success with startingYear
the minimum of the years.  The skipped options are arbitrary and do not
enter the minimum. -/
theorem checkAuth_min_starting_year (code : Nat) (opts : List (Option String))
    (y : Int) (ys : List Int)
    (hp : opts.filterMap scannedYear = (y :: ys).map some) :
    (checkAmazonAuth (Except.ok ⟨code, 0, opts⟩)).1 =
      ⟨AuthStatus.Success, some (JSNum.num ((ys.foldl min y : Int) : ℚ))⟩ ∧
    (walmartDoCheckAuth (Except.ok ⟨code, 0, opts⟩)).1 =
      ⟨AuthStatus.Success, some (JSNum.num ((ys.foldl min y : Int) : ℚ))⟩ := by
  have key : jsMinInts ((yearOptionsOf opts).map parseIntJS) =
      JSNum.num ((ys.foldl min y : Int) : ℚ) := by
    rw [yearOptionsOf_parse, hp]
    exact jsMinInts_map_some y ys
  constructor <;> simp [checkAmazonAuth, walmartDoCheckAuth, key]

/-- Witness for C5: a document mixing a non-year option and a valueless
option with year-2021 and year-2019 gives startingYear 2019 — the two
non-year options exercise the skip branch of the scan. -/
theorem checkAuth_min_starting_year_witness :
    (checkAmazonAuth (Except.ok
        ⟨200, 0, [some "last30days", none, some "year-2021", some "year-2019"]⟩)).1 =
      ⟨AuthStatus.Success, some (JSNum.num ((([2019] : List Int).foldl min 2021 : Int) : ℚ))⟩ ∧
    (walmartDoCheckAuth (Except.ok
        ⟨200, 0, [some "last30days", none, some "year-2021", some "year-2019"]⟩)).1 =
      ⟨AuthStatus.Success, some (JSNum.num ((([2019] : List Int).foldl min 2021 : Int) : ℚ))⟩ :=
  checkAuth_min_starting_year 200
    [some "last30days", none, some "year-2021", some "year-2019"] 2021 [2019]
    (by decide)

/-! C1 — partition of items into transactions by refund status. -/

/-- C1 counterexample: Amazon's detail extraction does not partition items
by refund status.  On exDetailAmazon the refund transaction carries both
(non-refunded) items — every transaction receives the full item list, and
Amazon items carry no refunded flag at all, so an item sits in a
transaction whose refund flag its own refunded field does not match. -/
theorem amazon_refund_transaction_holds_unrefunded_items :
    ∃ t ∈ resultTransactions
        (amazonFetchOrderTransactions exOrderAmazon exDetailAmazon),
      t.refund = true ∧ ∃ i ∈ t.items, i.refunded ≠ some t.refund := by
  decide

/-- C1 amended (Walmart): WalmartProvider.fetchOrderTransactions
partitions the extracted items by refund status — an item belongs to an
emitted transaction exactly when it is among the extracted items and its
refunded flag equals the transaction's refund flag. -/
theorem walmart_detail_partitions_items (order : Order) (doc : WalmartDetailDoc)
    (t : OrderTransaction)
    (ht : t ∈ (walmartFetchOrderTransactions order doc).transactions.getD [])
    (i : Item) :
    i ∈ t.items ↔ i ∈ walmartDetailItems order doc ∧ i.refunded = some t.refund := by
  simp only [walmartFetchOrderTransactions, Option.getD_some] at ht
  rw [List.mem_map] at ht
  obtain ⟨b, hb, rfl⟩ := ht
  simp [List.mem_filter]

/-- Witness for C1: in the 2-items-plus-1-refunded scenario, the refunded
item C belongs to the refund transaction exactly because it is an
extracted item whose refunded flag matches. -/
theorem walmart_detail_partitions_items_witness :
    (⟨some "W1", "C", JSNum.num (mkRat 3 1), some true⟩ : Item) ∈
      (⟨"W1", "May 09, 2024", JSNum.num (mkRat 3 1), true,
        [⟨some "W1", "C", JSNum.num (mkRat 3 1), some true⟩]⟩ : OrderTransaction).items ↔
    ((⟨some "W1", "C", JSNum.num (mkRat 3 1), some true⟩ : Item) ∈
        walmartDetailItems exOrderWalmart exDetailWalmart ∧
      (⟨some "W1", "C", JSNum.num (mkRat 3 1), some true⟩ : Item).refunded =
        some (⟨"W1", "May 09, 2024", JSNum.num (mkRat 3 1), true,
          [⟨some "W1", "C", JSNum.num (mkRat 3 1), some true⟩]⟩ : OrderTransaction).refund) :=
  walmart_detail_partitions_items exOrderWalmart exDetailWalmart _ (by decide) _

/-! C7 — listing extraction counts, exclusions and diagnostics. -/

/-- Recoverability decides whether the Amazon loop body pushes a record. -/
theorem isSome_amazonCardOrder (c : AmazonOrderCard) :
    (amazonCardOrder c).isSome = amazonRecoverable c := by
  cases h : c.orderLink with
  | none => simp [amazonCardOrder, amazonRecoverable, h]
  | some href =>
    by_cases hid : amazonExtractOrderId href = "" <;>
      simp [amazonCardOrder, amazonRecoverable, h, hid]

/-- Unrecoverability decides whether the Walmart loop body skips. -/
theorem isSome_walmartGroupOrder (g : WalmartOrderGroup) :
    (walmartGroupOrder g).isSome = !(walmartUnrecoverable g) := by
  cases h : g.returnLink with
  | none => simp [walmartGroupOrder, walmartUnrecoverable, h]
  | some link =>
    by_cases hid : walmartExtractOrderId link = "" <;>
      simp [walmartGroupOrder, walmartUnrecoverable, h, hid]

/-- Unrecoverability decides whether the Walmart loop body logs. -/
theorem isSome_walmartGroupLog (g : WalmartOrderGroup) :
    (walmartGroupLog g).isSome = walmartUnrecoverable g := by
  by_cases h : walmartUnrecoverable g <;> simp [walmartGroupLog, h]

/-- C7 counterexample: an Amazon listing entry without a recoverable
identifier is excluded from the result but produces no diagnostic log
entry — the skip is silent (the only debugLog sits in an unreachable
catch block). -/
theorem amazon_listing_skips_unrecoverable_silently :
    amazonOrderListFromPage ⟨[], [⟨none, "May 01, 2024"⟩]⟩ =
      ([], ([] : List String)) := by
  decide

/-- C7 amended: listing extraction returns one record per recoverable
entry, in order, each with a nonempty identifier, and never throws (both
embeddings are total); entries with unrecoverable identifiers are
excluded, with one "No order ID found" diagnostic per such entry for
Walmart and no diagnostic at all for Amazon. -/
theorem listing_extraction_counts (pts : List String)
    (cards : List AmazonOrderCard) (gs : List WalmartOrderGroup) :
    (amazonOrderListFromPage ⟨pts, cards⟩).1.length =
        (cards.filter amazonRecoverable).length ∧
    (amazonOrderListFromPage ⟨pts, cards⟩).2 = [] ∧
    (∀ o ∈ (amazonOrderListFromPage ⟨pts, cards⟩).1, o.id ≠ "") ∧
    (walmartOrderListFromPage ⟨gs⟩).1.length =
        (gs.filter (fun g => !(walmartUnrecoverable g))).length ∧
    (walmartOrderListFromPage ⟨gs⟩).2.length =
        (gs.filter walmartUnrecoverable).length ∧
    (∀ o ∈ (walmartOrderListFromPage ⟨gs⟩).1, o.id ≠ "") := by
  refine ⟨?_, ?_, ?_, ?_, ?_, ?_⟩
  · rw [amazonOrderListFromPage_spec, length_filterMap_eq_count]
    simp only [List.filter_congr (fun c _ => isSome_amazonCardOrder c)]
  · rw [amazonOrderListFromPage_spec]
  · intro o ho
    rw [amazonOrderListFromPage_spec] at ho
    obtain ⟨c, hc, hco⟩ := List.mem_filterMap.mp ho
    cases hl : c.orderLink with
    | none => simp [amazonCardOrder, hl] at hco
    | some href =>
      simp only [amazonCardOrder, hl] at hco
      by_cases hid : amazonExtractOrderId href = ""
      · simp [hid] at hco
      · simp only [hid, if_neg, ite_false] at hco
        cases hco
        exact hid
  · rw [walmartOrderListFromPage_spec, length_filterMap_eq_count]
    simp only [List.filter_congr (fun g _ => isSome_walmartGroupOrder g)]
  · rw [walmartOrderListFromPage_spec, length_filterMap_eq_count]
    simp only [List.filter_congr (fun g _ => isSome_walmartGroupLog g)]
  · intro o ho
    rw [walmartOrderListFromPage_spec] at ho
    obtain ⟨g, hg, hgo⟩ := List.mem_filterMap.mp ho
    cases hl : g.returnLink with
    | none => simp [walmartGroupOrder, hl] at hgo
    | some link =>
      simp only [walmartGroupOrder, hl] at hgo
      by_cases hid : walmartExtractOrderId link = ""
      · simp [hid] at hgo
      · simp only [hid, if_neg, ite_false] at hgo
        cases hgo
        exact hid

/-! C2 — per-task fault isolation in fetchOrders. -/

/-- C2: in every run of either provider's fetchOrders in which exactly one
discovered order's detail fetch throws (exactly one task produces a caught
error), the exception is caught inside that task, the failed order is
omitted, the other tasks are unaffected (the result is exactly the
successful outcomes, in task order), the result holds N - 1 of the N
discovered orders, and the failure accounts for exactly one error-log
entry (for Walmart, on top of the listing-stage diagnostics that pipeline
also collects). -/
theorem fetchOrders_isolates_single_failure
    (envA : AmazonEnv) (envW : WalmartEnv) (maxPages : Option Int)
    (hA : ((amazonDiscoveredOrders envA).filterMap
        (fun o => exceptErr (envA.detail o))).length = 1)
    (hW : ((walmartDiscoveredOrders envW maxPages).1.filterMap
        (fun o => exceptErr (envW.detail o))).length = 1) :
    (amazonFetchOrders envA).1 =
      (amazonDiscoveredOrders envA).filterMap (fun o => (envA.detail o).toOption) ∧
    (amazonFetchOrders envA).2.2 =
      (amazonDiscoveredOrders envA).filterMap (fun o => exceptErr (envA.detail o)) ∧
    (amazonFetchOrders envA).1.length = (amazonDiscoveredOrders envA).length - 1 ∧
    (amazonFetchOrders envA).2.2.length = 1 ∧
    (walmartFetchOrders envW maxPages).1 =
      (walmartDiscoveredOrders envW maxPages).1.filterMap
        (fun o => (envW.detail o).toOption) ∧
    (walmartFetchOrders envW maxPages).2.2 =
      (walmartDiscoveredOrders envW maxPages).2 ++
        (walmartDiscoveredOrders envW maxPages).1.filterMap
          (fun o => exceptErr (envW.detail o)) ∧
    (walmartFetchOrders envW maxPages).1.length =
      (walmartDiscoveredOrders envW maxPages).1.length - 1 ∧
    (walmartFetchOrders envW maxPages).2.2.length =
      (walmartDiscoveredOrders envW maxPages).2.length + 1 := by
  have ha1 : (amazonFetchOrders envA).1 =
      (amazonDiscoveredOrders envA).filterMap (fun o => (envA.detail o).toOption) := by
    simp [amazonFetchOrders, runDetailPhase, detailLoop_fst]
  have ha2 : (amazonFetchOrders envA).2.2 =
      (amazonDiscoveredOrders envA).filterMap (fun o => exceptErr (envA.detail o)) := by
    simp [amazonFetchOrders, runDetailPhase, detailLoop_errs]
  have hsumA := detail_successes_add_errors envA.detail (amazonDiscoveredOrders envA)
  have hw1 : (walmartFetchOrders envW maxPages).1 =
      (walmartDiscoveredOrders envW maxPages).1.filterMap
        (fun o => (envW.detail o).toOption) := by
    simp [walmartFetchOrders, runDetailPhase, detailLoop_fst]
  have hw2 : (walmartFetchOrders envW maxPages).2.2 =
      (walmartDiscoveredOrders envW maxPages).2 ++
        (walmartDiscoveredOrders envW maxPages).1.filterMap
          (fun o => exceptErr (envW.detail o)) := by
    simp [walmartFetchOrders, runDetailPhase, detailLoop_errs]
  have hsumW := detail_successes_add_errors envW.detail
    (walmartDiscoveredOrders envW maxPages).1
  refine ⟨ha1, ha2, ?_, ?_, hw1, hw2, ?_, ?_⟩
  · rw [ha1]; omega
  · rw [ha2, hA]
  · rw [hw1]; omega
  · rw [hw2, List.length_append, hW]

/-- Witness for C2: 13 discovered orders per provider, the detail fetches
of A5 and W5 throwing network errors, give 12 result orders and one
failure log each (Walmart's listing diagnostics being empty here). -/
theorem fetchOrders_single_failure_witness :
    (amazonFetchOrders exEnvSingleFail).1 =
      (amazonDiscoveredOrders exEnvSingleFail).filterMap
        (fun o => (exEnvSingleFail.detail o).toOption) ∧
    (amazonFetchOrders exEnvSingleFail).2.2 =
      (amazonDiscoveredOrders exEnvSingleFail).filterMap
        (fun o => exceptErr (exEnvSingleFail.detail o)) ∧
    (amazonFetchOrders exEnvSingleFail).1.length =
      (amazonDiscoveredOrders exEnvSingleFail).length - 1 ∧
    (amazonFetchOrders exEnvSingleFail).2.2.length = 1 ∧
    (walmartFetchOrders exWEnvSingleFail none).1 =
      (walmartDiscoveredOrders exWEnvSingleFail none).1.filterMap
        (fun o => (exWEnvSingleFail.detail o).toOption) ∧
    (walmartFetchOrders exWEnvSingleFail none).2.2 =
      (walmartDiscoveredOrders exWEnvSingleFail none).2 ++
        (walmartDiscoveredOrders exWEnvSingleFail none).1.filterMap
          (fun o => exceptErr (exWEnvSingleFail.detail o)) ∧
    (walmartFetchOrders exWEnvSingleFail none).1.length =
      (walmartDiscoveredOrders exWEnvSingleFail none).1.length - 1 ∧
    (walmartFetchOrders exWEnvSingleFail none).2.2.length =
      (walmartDiscoveredOrders exWEnvSingleFail none).2.length + 1 :=
  fetchOrders_isolates_single_failure exEnvSingleFail exWEnvSingleFail none
    (by decide) (by decide)

/-! C4 — sequential pagination and the two-page scenario. -/

/-- C4 counterexample: WalmartProvider.fetchOrders with maxPages = 2 over
a two-page listing (10 groups on page 1, 3 on page 2) returns only the 10
page-1 orders with a final progress callback of complete = total = 10 —
not the 13 the claim requires — because endPage starts at 1 and the
maxPages test can only lower it, so page 2 (which does hold 3 entries) is
never fetched. -/
theorem walmart_maxpages_two_stops_at_page_one :
    (walmartFetchOrders exWEnv (some 2)).1.length = 10 ∧
    (walmartFetchOrders exWEnv (some 2)).2.1.getLast? =
      some ⟨ProgressPhase.WalmartOrderDownload, 10, 10⟩ ∧
    (walmartOrderListFromPage (exWEnv.listing 2)).1.length = 3 := by
  refine ⟨by decide, by decide, by decide⟩

/-- C4 amended: Amazon's fetchOrders (which accepts no maxPages argument;
its page count comes from the pagination-control scan) fetches pages 2..N
sequentially at startIndex (i-1)*10 and concatenates records in page
order, so the two-page scenario (10 entries on page 1, 3 on page 2,
pagination control reading 2) yields 13 orders and a final progress
callback with complete = total = 13; Walmart's fetchOrders, whose signature
does take maxPages, never raises its page count above 1. -/
theorem amazon_two_page_scenario :
    amazonDiscoveredOrders exEnvTwoPages =
      (amazonOrderListFromPage (exEnvTwoPages.listing 1)).1 ++
        (amazonOrderListFromPage (exEnvTwoPages.listing 2)).1 ∧
    (amazonFetchOrders exEnvTwoPages).1.length = 13 ∧
    (amazonFetchOrders exEnvTwoPages).2.1.getLast? =
      some ⟨ProgressPhase.AmazonOrderDownload, 13, 13⟩ ∧
    (extraPages (amazonComputeEndPage (exEnvTwoPages.listing 1).paginationTexts)).map
        pageStartIndex = [10] := by
  refine ⟨by decide, by decide, by decide, by decide⟩

end MonarchSync
